import Mathlib

/-!
Verification development for the webfocus-js/app repository.

The embedding models `src/component.js` (WebfocusComponent: display name,
URL-safe name, single-assignment configuration with a read-only proxy) and
`src/app.js` (WebfocusApp: configuration checks, component registration,
and the request-dispatch pipeline installed by `start`).  JavaScript
objects used as string-keyed maps are modelled as association lists in
insertion order; the external collaborators (the template engine and the
static-file middlewares) are modelled as oracle functions gathered in an
`Env` record.
-/

namespace Webfocus

/-! ## Component model (src/component.js) -/

/-- Whitespace test modelling the JavaScript regular-expression class
backslash-s (as used in `name.replace` in the WebfocusComponent
constructor): ASCII whitespace plus the Unicode space characters. -/
def jsWs (c : Char) : Bool :=
  c.toNat = 9 || c.toNat = 10 || c.toNat = 11 || c.toNat = 12 || c.toNat = 13 ||
  c.toNat = 32 || c.toNat = 0xa0 || c.toNat = 0x1680 ||
  (0x2000 ≤ c.toNat && c.toNat ≤ 0x200a) ||
  c.toNat = 0x2028 || c.toNat = 0x2029 || c.toNat = 0x202f ||
  c.toNat = 0x205f || c.toNat = 0x3000 || c.toNat = 0xfeff

/-- Character-level model of `String.prototype.toLowerCase` restricted to
the ASCII simple case mapping. -/
def jsToLower (c : Char) : Char :=
  match c with
  | 'A' => 'a' | 'B' => 'b' | 'C' => 'c' | 'D' => 'd' | 'E' => 'e'
  | 'F' => 'f' | 'G' => 'g' | 'H' => 'h' | 'I' => 'i' | 'J' => 'j'
  | 'K' => 'k' | 'L' => 'l' | 'M' => 'm' | 'N' => 'n' | 'O' => 'o'
  | 'P' => 'p' | 'Q' => 'q' | 'R' => 'r' | 'S' => 's' | 'T' => 't'
  | 'U' => 'u' | 'V' => 'v' | 'W' => 'w' | 'X' => 'x' | 'Y' => 'y'
  | 'Z' => 'z'
  | other => other

/-- Model of `replace` with the global regular expression matching runs of
whitespace and the replacement hyphen: every maximal run of whitespace
characters becomes a single hyphen. -/
def squashWs : List Char → List Char
  | [] => []
  | [c] => if jsWs c then ['-'] else [c]
  | a :: b :: rest =>
      if jsWs a && jsWs b then squashWs (b :: rest)
      else (if jsWs a then '-' else a) :: squashWs (b :: rest)

/-- Property map standing for a JavaScript configuration object: property
names to (abstracted) property values. -/
abbrev ConfigObj := List (String × String)

/-- Model of the WebfocusComponent instance state: the public fields set by
the constructor together with the private configuration slot
(`EMPTY` modelled as `none`) and a counter of onConfigurationReady
callback invocations. -/
structure WebfocusComponent where
  name : String
  urlname : String
  description : String
  dirname : String
  hidden : Bool
  config : Option ConfigObj
  readyCalls : Nat
deriving DecidableEq

/-- Model of the WebfocusComponent constructor on string arguments (the
string-type checks succeed by typing): the urlname is the display name
with whitespace runs replaced by hyphens and then lowercased, exactly as
`name.replace` followed by `toLowerCase` in the source. -/
def mkComponent (name description dirname : String) : WebfocusComponent :=
  { name := name
    urlname := String.mk ((squashWs name.data).map jsToLower)
    description := description
    dirname := dirname
    hidden := false
    config := none
    readyCalls := 0 }

/-- Spec-worded urlname, for comparison with the source definition: the
display name lowercased, with every maximal whitespace run replaced by a
single hyphen. -/
def specUrlname (name : String) : String :=
  String.mk (squashWs (name.data.map jsToLower))

theorem jsWs_jsToLower (c : Char) : jsWs (jsToLower c) = jsWs c := by
  unfold jsToLower
  split <;> rfl

theorem jsToLower_hyphen : jsToLower '-' = '-' := rfl

theorem squashWs_map : ∀ cs : List Char,
    squashWs (cs.map jsToLower) = (squashWs cs).map jsToLower
  | [] => rfl
  | [c] => by
      simp only [List.map, squashWs, jsWs_jsToLower]
      by_cases h : jsWs c <;> simp [h, jsToLower_hyphen]
  | a :: b :: rest => by
      have ih := squashWs_map (b :: rest)
      simp only [List.map] at ih ⊢
      simp only [squashWs, jsWs_jsToLower]
      by_cases ha : jsWs a <;> by_cases hb : jsWs b <;>
        simp [ha, hb, ih, jsToLower_hyphen]

/-- Message thrown when the configuration setter is used a second time. -/
def componentOverrideMsg (name : String) : String :=
  "Attempting to override configuration object on component \"" ++ name ++ "\"."

/-- Message thrown by the configuration proxy on any property write. -/
def overrideValueMsg (name : String) : String :=
  "Attempting to override value on " ++ name ++ " component\x27s configuration."

/-- Message thrown by the configuration proxy on a property read before
the configuration was assigned. -/
def accessBeforeInitMsg (name : String) : String :=
  "Attempting to access configuration before its initialisation on " ++ name ++ " component."

/-- Model of the `set configuration` accessor: on the first assignment the
private slot is filled and the onConfigurationReady callback runs; any
later assignment throws a WebfocusComponentError and changes nothing. -/
def setConfiguration (c : WebfocusComponent) (cfg : ConfigObj) :
    Except String WebfocusComponent :=
  match c.config with
  | none => .ok { c with config := some cfg, readyCalls := c.readyCalls + 1 }
  | some _ => .error (componentOverrideMsg c.name)

/-- Property lookup on a configuration object (`cfg[prop]`): `none` stands
for the JavaScript undefined. -/
def lookupProp (cfg : ConfigObj) (k : String) : Option String :=
  (cfg.find? (fun p => p.1 == k)).map Prod.snd

/-- Model of a property read through the proxy returned by the
`get configuration` accessor. -/
def configGetProp (c : WebfocusComponent) (k : String) :
    Except String (Option String) :=
  match c.config with
  | none => .error (accessBeforeInitMsg c.name)
  | some cfg => .ok (lookupProp cfg k)

/-- Model of a property write through the proxy returned by the
`get configuration` accessor: it always throws. -/
def configSetProp (c : WebfocusComponent) (_k _v : String) :
    Except String Unit :=
  .error (overrideValueMsg c.name)

/-! ## Application model (src/app.js) -/

/-- Reserved names that cannot be used by a component. -/
def RESERVED_URLNAMES : List String :=
  ["bootstrap", "webfocus-static", "popperjs"]

/-- Port value found in a caller-supplied configuration object: absent
(so the default 0 from DEFAULT_VALUES applies), an integral number, or any
other value (a non-number or a non-integral number, for which
`Number.isSafeInteger` is false). -/
inductive JsPortValue where
  | absent
  | int (n : Int)
  | other
deriving DecidableEq

/-- Model of `Number.isSafeInteger` on integral values. -/
def isSafeInteger (n : Int) : Bool :=
  n.natAbs ≤ 9007199254740991

/-- Port stored by the WebfocusApp constructor: the merge with
DEFAULT_VALUES followed by the range check that resets invalid ports
to 0. -/
def normalizePort : JsPortValue → Int
  | .absent => 0
  | .other => 0
  | .int n =>
      if !isSafeInteger n || n < 0 || n > 65535 then 0 else n

/-- Caller-supplied configuration object, restricted to the properties the
constructor inspects. -/
structure RawConfig where
  port : JsPortValue
  name : Option String
  components : Option (List String)
  dirname : Option String
  staticDir : Option String
deriving DecidableEq

/-- Configuration record held by a WebfocusApp after the constructor
checks. -/
structure AppConfig where
  port : Int
  name : String
  components : List String
  dirname : String
  staticDir : String
deriving DecidableEq

/-- Model of the WebfocusApp instance state: the checked configuration,
the registered-components map (an association list from urlname to
component, in insertion order, modelling the plain-object map), and the
started flag. -/
structure WebfocusApp where
  configuration : AppConfig
  components : List (String × WebfocusComponent)
  started : Bool
deriving DecidableEq

/-- Default name from DEFAULT_VALUES. -/
def DEFAULT_NAME : String := "Default Application Name"

/-- Model of the WebfocusApp constructor: Object.assign with
DEFAULT_VALUES, the port check, the reset of the components list, an empty
registered-components map, and started set to false. -/
def mkWebfocusApp (rc : RawConfig) : WebfocusApp :=
  { configuration :=
      { port := normalizePort rc.port
        name := rc.name.getD DEFAULT_NAME
        components := []
        dirname := rc.dirname.getD "views"
        staticDir := rc.staticDir.getD "static" }
    components := []
    started := false }

/-- Property names inherited from Object.prototype, which the JavaScript
`in` operator also finds on the plain-object map `this.components`. -/
def OBJECT_PROTOTYPE_KEYS : List String :=
  ["constructor", "hasOwnProperty", "isPrototypeOf", "propertyIsEnumerable",
   "toLocaleString", "toString", "valueOf", "__defineGetter__",
   "__defineSetter__", "__lookupGetter__", "__lookupSetter__", "__proto__"]

/-- Membership test of a key in the registered-components map, modelling
the JavaScript `in` operator on the plain-object map: it finds the own
keys and also the keys inherited from Object.prototype. -/
def hasKey (m : List (String × WebfocusComponent)) (k : String) : Bool :=
  m.any (fun p => p.1 == k) || OBJECT_PROTOTYPE_KEYS.contains k

/-- Model of WebfocusApp.registerComponent: rejects (returning false and
changing nothing) when the app has started, when the urlname is already a
key of the registered-components map, or when the urlname is reserved;
otherwise stores the component under its urlname, appends the urlname to
configuration.components unless the component is hidden, and returns
true. -/
def registerComponent (app : WebfocusApp) (c : WebfocusComponent) :
    Bool × WebfocusApp :=
  if app.started then (false, app)
  else if hasKey app.components c.urlname then (false, app)
  else if RESERVED_URLNAMES.contains c.urlname then (false, app)
  else
    (true,
      { app with
        components := app.components ++ [(c.urlname, c)]
        configuration :=
          if c.hidden then app.configuration
          else { app.configuration with
                 components := app.configuration.components ++ [c.urlname] } })

/-- Model of WebfocusApp.start: a second call is ignored (returning null,
modelled as false); the first call flips the started flag and returns the
server (modelled as true). -/
def startApp (app : WebfocusApp) : WebfocusApp × Bool :=
  if app.started then (app, false)
  else ({ app with started := true }, true)

/-- Model of WebfocusApp.getComponent: `none` stands for the null returned
when no component has the given urlname. -/
def getComponent (app : WebfocusApp) (urlname : String) :
    Option WebfocusComponent :=
  (app.components.find? (fun p => p.1 == urlname)).map Prod.snd

/-- Model of WebfocusApp.getAllComponentNames: Object.keys of the
registered-components map. -/
def getAllComponentNames (app : WebfocusApp) : List String :=
  app.components.map Prod.fst

/-- States of a WebfocusApp reachable from the constructor through the
state-changing operations (registerComponent and start). -/
inductive Reachable : WebfocusApp → Prop where
  | init (rc : RawConfig) : Reachable (mkWebfocusApp rc)
  | register (app : WebfocusApp) (c : WebfocusComponent) :
      Reachable app → Reachable (registerComponent app c).2
  | start (app : WebfocusApp) :
      Reachable app → Reachable (startApp app).1

/-! ## Request dispatch model (the pipeline installed by start) -/

/-- HTTP request methods relevant to the dispatch pipeline. -/
inductive Method where
  | GET
  | HEAD
  | POST
  | PUT
  | DELETE
deriving DecidableEq

/-- An incoming HTTP request: method and path. -/
structure Request where
  method : Method
  path : String
deriving DecidableEq

/-- Result of asking the template engine to render a template path. -/
inductive RenderResult where
  | ok (html : String)
  | err (msg : String)
deriving DecidableEq

/-- Behaviour of a component API router on a sub-request: pass to the next
handler, respond, or raise an error (caught by the API error handler). -/
inductive ApiAction where
  | pass
  | respond (status : Nat) (body : String)
  | raise (msg : String)
deriving DecidableEq

/-- Response produced by the dispatch pipeline. -/
inductive Resp where
  | view (status : Nat) (template : String)
  | sentHtml (body : String)
  | jsonNames (names : List String)
  | jsonError (status : Nat) (msg : String)
  | jsonBody (status : Nat) (body : String)
  | staticFile (root sub : String)
deriving DecidableEq

/-- Outcome of a middleware segment: fall through to the following
handlers, respond, or raise an error that skips to the error handler. -/
inductive Flow where
  | pass
  | respond (r : Resp)
  | raise (msg : String)
deriving DecidableEq

/-- Oracles for the opaque external collaborators: the template engine
(deterministic per template path), the four static-file middlewares, the
per-component static middleware, and the per-component API routers. -/
structure Env where
  render : String → RenderResult
  appStatic : String → Bool
  wfStatic : String → Bool
  bootStatic : String → Bool
  popperStatic : String → Bool
  compStatic : String → String → Bool
  compApi : String → Request → ApiAction

/-- Prefix test on the character lists of two strings. -/
def strIsPrefixOf (a b : String) : Bool :=
  a.data.isPrefixOf b.data

/-- Suffix test on the character lists of two strings. -/
def strEndsWith (s t : String) : Bool :=
  t.data.reverse.isPrefixOf s.data.reverse

/-- ASCII lowercasing of a whole string, used to model the
case-insensitive path matching Express performs by default. -/
def lowerStr (s : String) : String :=
  String.mk (s.data.map jsToLower)

/-- Mount-path matching of `use(pre, ...)`: the path equals the mount
prefix or continues it with a slash, compared case-insensitively as
Express mounts are by default; the root mount matches every path. -/
def mountMatch (pre p : String) : Bool :=
  pre == "/" || lowerStr p == lowerStr pre ||
    strIsPrefixOf (lowerStr (pre ++ "/")) (lowerStr p)

/-- Path seen by a mounted middleware: the mount prefix is stripped (the
match being case-insensitive), an exact match leaving the root path. -/
def stripMount (pre p : String) : String :=
  if lowerStr p == lowerStr pre then "/"
  else String.mk (p.data.drop pre.data.length)

/-- Boolean test of one character list occurring contiguously inside
another. -/
def listIsInfixOf (needle : List Char) : List Char → Bool
  | [] => needle.isEmpty
  | b :: bs => needle.isPrefixOf (b :: bs) || listIsInfixOf needle bs

/-- Test of `err.message.indexOf("Failed to lookup") >= 0` used to detect
the template-not-found condition. -/
def failedLookup (msg : String) : Bool :=
  listIsInfixOf "Failed to lookup".data msg.data

/-- Minimal model of node path.join for the template paths built by the
SSR handler. -/
def pathJoin (a b : String) : String :=
  a ++ (if strIsPrefixOf "/" b then b else "/" ++ b)

/-- Removal of the trailing extension, modelling `replace` with the
regular expression matching a final dot followed by non-dot characters:
everything from the last dot on is dropped. -/
def removeExtension (s : String) : String :=
  String.mk (((s.data.reverse.dropWhile (fun c => c != '.')).drop 1).reverse)

/-- Sub-path of the view the SSR handler renders: the request sub-path,
with "index" appended when it ends in a slash, then the extension
removed when a dot is present. -/
def viewSubpath (p : String) : String :=
  let sp := if strEndsWith p "/" then p ++ "index" else p
  if sp.data.contains '.' then removeExtension sp else sp

/-- True exactly on the methods the SSR handler serves. -/
def isGetHead (m : Method) : Bool :=
  m == .GET || m == .HEAD

/-- Outcome of the SSR handler. -/
inductive SsrOut where
  | send (html : String)
  | nexted
  | nextErr (msg : String)
deriving DecidableEq

/-- Model of the server-side-rendering handler mounted for a component:
non-GET/HEAD requests pass through; otherwise the view named by the
request sub-path is rendered, a failure on the index sub-path or a
failure other than template-not-found propagates the error, and a
template-not-found failure falls back to rendering the component index
view (whose own failure propagates). -/
def ssrHandler (env : Env) (dirname : String) (m : Method) (p : String) :
    SsrOut :=
  if isGetHead m = false then .nexted
  else
    let sp := viewSubpath p
    match env.render (pathJoin dirname sp) with
    | .ok html => .send html
    | .err msg =>
        if sp == "/index" then .nextErr msg
        else if failedLookup msg then
          match env.render (pathJoin dirname "index") with
          | .ok html => .send html
          | .err msg2 => .nextErr msg2
        else .nextErr msg

/-- The API router segment contributed by the registered components, in
registration order: the first component whose mount matches and whose
router does not pass determines the outcome, a raised error being turned
into the 500 JSON response by the API error handler. -/
def apiCompLoop (env : Env) (comps : List (String × WebfocusComponent))
    (m : Method) (p : String) : Option Resp :=
  match comps with
  | [] => none
  | (u, _) :: rest =>
      if mountMatch ("/" ++ u) p then
        match env.compApi u ⟨m, stripMount ("/" ++ u) p⟩ with
        | .pass => apiCompLoop env rest m p
        | .respond status body => some (.jsonBody status body)
        | .raise msg => some (.jsonError 500 msg)
      else apiCompLoop env rest m p

/-- The API router after start: the root route answering the component
names, the component routers, and the final 404 JSON handler. -/
def apiDispatch (env : Env) (comps : List (String × WebfocusComponent))
    (allNames : List String) (m : Method) (p : String) : Resp :=
  if isGetHead m && p == "/" then .jsonNames allNames
  else
    match apiCompLoop env comps m p with
    | some r => r
    | none => .jsonError 404 ("API Endpoint " ++ p ++ " not found.")

/-- The app-level middleware segment contributed by the registered
components, in registration order: for a matching mount the component
static middleware is tried first, then the SSR handler; a pass continues
with the later components. -/
def appCompLoop (env : Env) (comps : List (String × WebfocusComponent))
    (m : Method) (p : String) : Flow :=
  match comps with
  | [] => .pass
  | (u, c) :: rest =>
      if mountMatch ("/" ++ u) p then
        let sub := stripMount ("/" ++ u) p
        if isGetHead m && env.compStatic c.dirname sub then
          .respond (.staticFile c.dirname sub)
        else
          match ssrHandler env c.dirname m sub with
          | .send html => .respond (.sentHtml html)
          | .nextErr msg => .raise msg
          | .nexted => appCompLoop env rest m p
      else appCompLoop env rest m p

/-- Full dispatch pipeline of a started WebfocusApp, in mounting order:
the /api router, the root index route, the per-component mounts, the
webfocus-static, bootstrap and popperjs static mounts, the application
static directory, the GET catch-all rendering the error layout with 404,
the method catch-all with 400, and the error handler rendering the error
layout with 500. -/
def dispatchStarted (app : WebfocusApp) (env : Env) (req : Request) :
    Resp :=
  if mountMatch "/api" req.path then
    apiDispatch env app.components (getAllComponentNames app) req.method
      (stripMount "/api" req.path)
  else if isGetHead req.method && req.path == "/" then
    .view 200 "layouts/index"
  else
    match appCompLoop env app.components req.method req.path with
    | .respond r => r
    | .raise _ => .view 500 "layouts/error"
    | .pass =>
        if mountMatch "/webfocus-static" req.path && isGetHead req.method &&
            env.wfStatic (stripMount "/webfocus-static" req.path) then
          .staticFile "webfocus-static" (stripMount "/webfocus-static" req.path)
        else if mountMatch "/bootstrap" req.path && isGetHead req.method &&
            env.bootStatic (stripMount "/bootstrap" req.path) then
          .staticFile "bootstrap" (stripMount "/bootstrap" req.path)
        else if mountMatch "/popperjs" req.path && isGetHead req.method &&
            env.popperStatic (stripMount "/popperjs" req.path) then
          .staticFile "popperjs" (stripMount "/popperjs" req.path)
        else if isGetHead req.method && env.appStatic req.path then
          .staticFile app.configuration.staticDir req.path
        else if isGetHead req.method then
          .view 404 "layouts/error"
        else
          .view 400 "layouts/error"

/-! ## Concrete fixtures used by witnesses and counterexamples -/

/-- Empty caller configuration. -/
def rc0 : RawConfig :=
  { port := .absent, name := none, components := none,
    dirname := none, staticDir := none }

/-- Freshly constructed application. -/
def app0 : WebfocusApp := mkWebfocusApp rc0

/-- Sample component. -/
def comp0 : WebfocusComponent :=
  { name := "My Comp", urlname := "my-comp", description := "demo"
    dirname := "/srv/comp", hidden := false, config := none, readyCalls := 0 }

/-- Started application with no components. -/
def appEmptyStarted : WebfocusApp := (startApp app0).1

/-- Environment with no static files, no component API responses, and a
template engine that always fails the lookup. -/
def env0 : Env :=
  { render := fun _ => .err "Failed to lookup view"
    appStatic := fun _ => false
    wfStatic := fun _ => false
    bootStatic := fun _ => false
    popperStatic := fun _ => false
    compStatic := fun _ _ => false
    compApi := fun _ _ => .pass }

/-- Environment whose template engine only knows the component index view
of comp0. -/
def env1 : Env :=
  { render := fun t =>
      if t == "/srv/comp/index" then .ok "IDX"
      else .err "Failed to lookup view templates"
    appStatic := fun _ => false
    wfStatic := fun _ => false
    bootStatic := fun _ => false
    popperStatic := fun _ => false
    compStatic := fun _ _ => false
    compApi := fun _ _ => .pass }

/-! ## Claims -/

/-- C4: for every string name accepted by the WebfocusComponent
constructor, the urlname equals the display name lowercased with every
maximal run of whitespace replaced by a single hyphen. -/
theorem C4_urlname_is_spec_slug (name description dirname : String) :
    (mkComponent name description dirname).urlname = specUrlname name := by
  simp only [mkComponent, specUrlname, squashWs_map]

/-- C3: assigning a WebfocusComponent configuration succeeds at most once;
the first assignment stores the value and runs the onConfigurationReady
callback, any later assignment throws a WebfocusComponentError and leaves
the stored configuration unchanged. -/
theorem C3_configuration_single_assignment
    (c : WebfocusComponent) (cfg : ConfigObj) :
    (c.config = none →
       setConfiguration c cfg =
         .ok { c with config := some cfg, readyCalls := c.readyCalls + 1 })
  ∧ (∀ old, c.config = some old →
       setConfiguration c cfg = .error (componentOverrideMsg c.name)) := by
  constructor
  · intro h
    simp [setConfiguration, h]
  · intro old h
    simp [setConfiguration, h]

theorem C3_witness :
    setConfiguration (mkComponent "A" "d" "/x") [("k", "v")] =
      .ok { mkComponent "A" "d" "/x" with
            config := some [("k", "v")], readyCalls := 1 } :=
  (C3_configuration_single_assignment (mkComponent "A" "d" "/x")
    [("k", "v")]).1 rfl

/-- C6: the configuration exposed through the getter is frozen; every
property write through it throws, every property read before the one-time
assignment throws, and after the assignment every read returns exactly the
stored property value. -/
theorem C6_configuration_frozen (c : WebfocusComponent) (k v : String) :
    configSetProp c k v = .error (overrideValueMsg c.name)
  ∧ (c.config = none →
       configGetProp c k = .error (accessBeforeInitMsg c.name))
  ∧ (∀ cfg, c.config = some cfg →
       configGetProp c k = .ok (lookupProp cfg k)) := by
  refine ⟨rfl, ?_, ?_⟩
  · intro h
    simp [configGetProp, h]
  · intro cfg h
    simp [configGetProp, h]

theorem C6_witness :
    configGetProp (mkComponent "A" "d" "/x") "k" =
      .error (accessBeforeInitMsg "A") :=
  (C6_configuration_frozen (mkComponent "A" "d" "/x") "k" "v").2.1 rfl

theorem normalizePort_int_valid (n : Int)
    (h : ¬((!isSafeInteger n || decide (n < 0) || decide (n > 65535)) = true)) :
    isSafeInteger n = true ∧ 0 ≤ n ∧ n ≤ 65535 := by
  simp only [Bool.or_eq_true, Bool.not_eq_true', decide_eq_true_eq, not_or,
    Bool.not_eq_false, not_lt] at h
  exact ⟨h.1.1, h.1.2, h.2⟩

theorem normalizePort_bounds (v : JsPortValue) :
    0 ≤ normalizePort v ∧ normalizePort v ≤ 65535 ∧
      isSafeInteger (normalizePort v) = true := by
  cases v with
  | absent => exact ⟨le_refl 0, by decide, by decide⟩
  | other => exact ⟨le_refl 0, by decide, by decide⟩
  | int n =>
      simp only [normalizePort]
      split
      · exact ⟨le_refl 0, by decide, by decide⟩
      · next h =>
          obtain ⟨hs, hlo, hhi⟩ := normalizePort_int_valid n h
          exact ⟨hlo, hhi, hs⟩

/-- C9: for every configuration passed to the WebfocusApp constructor, the
resulting configuration.port is a safe integer between 0 and 65535; any
port value that is not a safe integer, is negative, or exceeds 65535 is
replaced by 0. -/
theorem C9_port_normalized (rc : RawConfig) :
    0 ≤ (mkWebfocusApp rc).configuration.port
  ∧ (mkWebfocusApp rc).configuration.port ≤ 65535
  ∧ isSafeInteger (mkWebfocusApp rc).configuration.port = true
  ∧ (∀ n, rc.port = .int n →
       ¬(isSafeInteger n = true ∧ 0 ≤ n ∧ n ≤ 65535) →
       (mkWebfocusApp rc).configuration.port = 0)
  ∧ (rc.port = .other → (mkWebfocusApp rc).configuration.port = 0) := by
  have hb := normalizePort_bounds rc.port
  refine ⟨hb.1, hb.2.1, hb.2.2, ?_, ?_⟩
  · intro n hn hbad
    simp only [mkWebfocusApp, hn, normalizePort]
    split
    · rfl
    · next h => exact absurd (normalizePort_int_valid n h) hbad
  · intro h
    simp [mkWebfocusApp, h, normalizePort]

theorem C9_witness :
    (mkWebfocusApp { rc0 with port := .int (-7) }).configuration.port = 0 :=
  (C9_port_normalized { rc0 with port := .int (-7) }).2.2.2.1 (-7) rfl
    (by decide)

theorem hasKey_false_not_mem (comps : List (String × WebfocusComponent))
    (u : String) (h : ¬hasKey comps u = true) :
    u ∉ comps.map Prod.fst := by
  intro hmem
  apply h
  simp only [hasKey, Bool.or_eq_true, List.any_eq_true]
  refine Or.inl ?_
  obtain ⟨p, hp, hfst⟩ := List.mem_map.mp hmem
  exact ⟨p, hp, by simp [hfst]⟩

/-- C1: registerComponent accepts a component (returning true and
appending it to the registered-components map) only when the app has not
started, the `in` test on the registered-components map finds nothing for
the urlname (so in particular no component with that urlname is
registered), and the urlname is not reserved; every rejection returns
false and leaves the whole application state (map and configuration)
unchanged. -/
theorem C1_registerComponent_gate (app : WebfocusApp) (c : WebfocusComponent) :
    ((registerComponent app c).1 = true →
       app.started = false ∧ hasKey app.components c.urlname = false ∧
       c.urlname ∉ app.components.map Prod.fst ∧
       RESERVED_URLNAMES.contains c.urlname = false ∧
       (registerComponent app c).2.components =
         app.components ++ [(c.urlname, c)])
  ∧ ((registerComponent app c).1 = false →
       (registerComponent app c).2 = app) := by
  by_cases h1 : app.started = true
  · simp [registerComponent, h1]
  · by_cases h2 : hasKey app.components c.urlname = true
    · simp [registerComponent, h1, h2]
    · by_cases h3 : c.urlname ∈ RESERVED_URLNAMES
      · simp [registerComponent, h1, h2, h3]
      · have hnotin := hasKey_false_not_mem app.components c.urlname h2
        simp [registerComponent, h1, h2, h3, hnotin]

theorem C1_witness :
    (registerComponent app0 comp0).2.components =
      app0.components ++ [(comp0.urlname, comp0)] :=
  ((C1_registerComponent_gate app0 comp0).1 (by decide)).2.2.2.2

theorem registerComponent_accept_components (app : WebfocusApp)
    (c : WebfocusComponent) (h1 : ¬app.started = true)
    (h2 : ¬hasKey app.components c.urlname = true)
    (h3 : c.urlname ∉ RESERVED_URLNAMES) :
    (registerComponent app c).2.components =
      app.components ++ [(c.urlname, c)] := by
  simp [registerComponent, h1, h2, h3]

theorem registerComponent_accept_config (app : WebfocusApp)
    (c : WebfocusComponent) (h1 : ¬app.started = true)
    (h2 : ¬hasKey app.components c.urlname = true)
    (h3 : c.urlname ∉ RESERVED_URLNAMES) :
    (registerComponent app c).2.configuration.components =
      (if c.hidden then app.configuration.components
       else app.configuration.components ++ [c.urlname]) := by
  by_cases h4 : c.hidden = true <;>
    simp [registerComponent, h1, h2, h3, h4]

/-- C5: for every sequence of operations on a WebfocusApp, the urlnames of
the registered components stay pairwise distinct: the registered
components map never holds two components under the same urlname. -/
theorem C5_urlnames_nodup (app : WebfocusApp) (h : Reachable app) :
    (getAllComponentNames app).Nodup := by
  induction h with
  | init rc => simp [getAllComponentNames, mkWebfocusApp]
  | register app c hr ih =>
      by_cases h1 : app.started = true
      · simpa [getAllComponentNames, registerComponent, h1] using ih
      · by_cases h2 : hasKey app.components c.urlname = true
        · simpa [getAllComponentNames, registerComponent, h1, h2] using ih
        · by_cases h3 : c.urlname ∈ RESERVED_URLNAMES
          · simpa [getAllComponentNames, registerComponent, h1, h2, h3]
              using ih
          · have hnotin := hasKey_false_not_mem app.components c.urlname h2
            simp only [getAllComponentNames] at ih ⊢
            rw [registerComponent_accept_components app c h1 h2 h3]
            simp [List.nodup_append, ih, hnotin]
  | start app hr ih =>
      by_cases h1 : app.started = true
      · simpa [getAllComponentNames, startApp, h1] using ih
      · simpa [getAllComponentNames, startApp, h1] using ih

theorem C5_witness :
    (getAllComponentNames (registerComponent app0 comp0).2).Nodup :=
  C5_urlnames_nodup _ (Reachable.register app0 comp0 (Reachable.init rc0))

/-- C10: configuration.components is always a subset of the urlnames
returned by getAllComponentNames; the constructor resets any
caller-supplied components property to the empty list, registerComponent
appends the urlname to configuration.components only when the component is
not hidden, and getAllComponentNames lists the urlnames of all registered
components including hidden ones. -/
theorem C10_components_subset :
    (∀ rc, (mkWebfocusApp rc).configuration.components = [])
  ∧ (∀ (app : WebfocusApp) (c : WebfocusComponent),
       (registerComponent app c).1 = true →
       (registerComponent app c).2.configuration.components =
         (if c.hidden then app.configuration.components
          else app.configuration.components ++ [c.urlname]))
  ∧ (∀ app, getAllComponentNames app = app.components.map Prod.fst)
  ∧ (∀ app, Reachable app →
       ∀ x ∈ app.configuration.components, x ∈ getAllComponentNames app) := by
  refine ⟨fun rc => rfl, ?_, fun app => rfl, ?_⟩
  · intro app c hacc
    by_cases h1 : app.started = true
    · simp [registerComponent, h1] at hacc
    · by_cases h2 : hasKey app.components c.urlname = true
      · simp [registerComponent, h1, h2] at hacc
      · by_cases h3 : c.urlname ∈ RESERVED_URLNAMES
        · simp [registerComponent, h1, h2, h3] at hacc
        · exact registerComponent_accept_config app c h1 h2 h3
  · intro app h
    induction h with
    | init rc => simp [mkWebfocusApp]
    | register app c hr ih =>
        by_cases h1 : app.started = true
        · simpa [registerComponent, h1] using ih
        · by_cases h2 : hasKey app.components c.urlname = true
          · simpa [registerComponent, h1, h2] using ih
          · by_cases h3 : c.urlname ∈ RESERVED_URLNAMES
            · simpa [registerComponent, h1, h2, h3] using ih
            · intro x hx
              rw [registerComponent_accept_config app c h1 h2 h3] at hx
              simp only [getAllComponentNames]
              rw [registerComponent_accept_components app c h1 h2 h3]
              simp only [List.map_append, List.map_cons, List.map_nil,
                List.mem_append, List.mem_singleton]
              by_cases h4 : c.hidden = true
              · rw [if_pos h4] at hx
                exact Or.inl (ih x hx)
              · rw [if_neg h4] at hx
                rcases List.mem_append.mp hx with hx | hx
                · exact Or.inl (ih x hx)
                · exact Or.inr (List.mem_singleton.mp hx)
    | start app hr ih =>
        by_cases h1 : app.started = true
        · simpa [startApp, h1, getAllComponentNames] using ih
        · simpa [startApp, h1, getAllComponentNames] using ih

theorem C10_witness :
    "my-comp" ∈ getAllComponentNames (registerComponent app0 comp0).2 :=
  C10_components_subset.2.2.2 _
    (Reachable.register app0 comp0 (Reachable.init rc0)) "my-comp" (by decide)

theorem pathJoin_index (d : String) :
    pathJoin d "/index" = pathJoin d "index" := by
  have h1 : strIsPrefixOf "/" "/index" = true := by decide
  have h2 : strIsPrefixOf "/" "index" = false := by decide
  have h3 : "/" ++ "index" = "/index" := by decide
  simp only [pathJoin, h1, h2, if_true, if_false, Bool.false_eq_true, h3]

theorem ssrHandler_getHead (env : Env) (dirname : String) (m : Method)
    (p : String) (hm : isGetHead m = true) :
    ssrHandler env dirname m p =
      (match env.render (pathJoin dirname (viewSubpath p)) with
       | .ok html => .send html
       | .err msg =>
           if viewSubpath p == "/index" then .nextErr msg
           else if failedLookup msg then
             match env.render (pathJoin dirname "index") with
             | .ok html => .send html
             | .err msg2 => .nextErr msg2
           else .nextErr msg) := by
  simp [ssrHandler, hm]

/-- C2: for every GET or HEAD request dispatched to the SSR handler, the
handler first renders the component view named by the request sub-path;
when that render fails with a template-not-found error the outcome is that
of rendering the component index view, and any other render error is
propagated to the next error handler. -/
theorem C2_ssr_fallback (env : Env) (dirname p : String) (m : Method)
    (hm : isGetHead m = true) :
    (∀ html, env.render (pathJoin dirname (viewSubpath p)) = .ok html →
       ssrHandler env dirname m p = .send html)
  ∧ (∀ msg, env.render (pathJoin dirname (viewSubpath p)) = .err msg →
       failedLookup msg = true →
       ssrHandler env dirname m p =
         (match env.render (pathJoin dirname "index") with
          | .ok html => .send html
          | .err msg2 => .nextErr msg2))
  ∧ (∀ msg, env.render (pathJoin dirname (viewSubpath p)) = .err msg →
       failedLookup msg = false →
       ssrHandler env dirname m p = .nextErr msg) := by
  refine ⟨?_, ?_, ?_⟩
  · intro html hr
    rw [ssrHandler_getHead env dirname m p hm, hr]
  · intro msg hr hf
    rw [ssrHandler_getHead env dirname m p hm, hr]
    by_cases hsp : viewSubpath p = "/index"
    · rw [← pathJoin_index, ← hsp, hr]
      simp [hsp]
    · simp [hsp, hf]
  · intro msg hr hf
    rw [ssrHandler_getHead env dirname m p hm, hr]
    by_cases hsp : viewSubpath p = "/index"
    · simp [hsp]
    · simp [hsp, hf]

theorem C2_witness :
    ssrHandler env1 "/srv/comp" Method.GET "/nope" = SsrOut.send "IDX" := by
  have h := (C2_ssr_fallback env1 "/srv/comp" "/nope" Method.GET
      (by decide)).2.1 "Failed to lookup view templates" (by decide) (by decide)
  exact h.trans (by decide)

theorem appCompLoop_pass (env : Env) (m : Method) (p : String) :
    ∀ comps : List (String × WebfocusComponent),
      (∀ pr ∈ comps, mountMatch ("/" ++ pr.1) p = false) →
      appCompLoop env comps m p = .pass
  | [] => fun _ => rfl
  | (u, c) :: rest => fun h => by
      have hu := h (u, c) (List.mem_cons_self _ _)
      simp only [appCompLoop, hu, Bool.false_eq_true, if_false]
      exact appCompLoop_pass env m p rest
        (fun pr hpr => h pr (List.mem_cons_of_mem _ hpr))

/-- C7 (amended): after start, every GET request whose path is not the
root path, does not fall under the /api mount, matches no registered
component mount, and matches no static file (application static directory,
webfocus-static, bootstrap, popperjs) reaches the catch-all handler, which
responds with HTTP status 404 and the error layout. -/
theorem C7_not_found (app : WebfocusApp) (env : Env) (req : Request)
    (hm : req.method = Method.GET)
    (hroot : req.path ≠ "/")
    (hapi : mountMatch "/api" req.path = false)
    (hcomp : ∀ pr ∈ app.components, mountMatch ("/" ++ pr.1) req.path = false)
    (hwf : env.wfStatic (stripMount "/webfocus-static" req.path) = false)
    (hboot : env.bootStatic (stripMount "/bootstrap" req.path) = false)
    (hpop : env.popperStatic (stripMount "/popperjs" req.path) = false)
    (hstat : env.appStatic req.path = false) :
    dispatchStarted app env req = .view 404 "layouts/error" := by
  have hpass := appCompLoop_pass env req.method req.path app.components hcomp
  rw [hm] at hpass
  have hrootb : (req.path == "/") = false := by
    simpa using hroot
  simp [dispatchStarted, hapi, hrootb, hpass, hwf, hboot, hpop, hstat, hm,
    isGetHead]

theorem C7_witness :
    dispatchStarted appEmptyStarted env0
      { method := Method.GET, path := "/nope" } = .view 404 "layouts/error" :=
  C7_not_found appEmptyStarted env0 _ rfl (by decide) (by decide) (by decide)
    rfl rfl rfl rfl

/-- C7 counterexample: on a started application with no registered
components and no static files, the GET request for the root path matches
no component mount and no static file, yet it is answered by the index
layout with status 200 instead of reaching the 404 catch-all with the
error layout. -/
theorem C7_counterexample :
    appEmptyStarted.components = []
  ∧ env0.appStatic "/" = false
  ∧ dispatchStarted appEmptyStarted env0
      { method := Method.GET, path := "/" } = .view 200 "layouts/index"
  ∧ Resp.view 200 "layouts/index" ≠ Resp.view 404 "layouts/error" :=
  ⟨rfl, rfl, by decide, by decide⟩

/-- C8 (amended): after start, every API request other than a GET or HEAD
of the API root that no component API router handles receives the 404 JSON
error response; an error raised by the first matching component API router
is answered by the API error handler with the 500 JSON response carrying
the error message; and a non-API error raised in the component pipeline is
answered with status 500 and the error layout. -/
theorem C8_error_responses :
    (∀ (app : WebfocusApp) (env : Env) (req : Request),
       mountMatch "/api" req.path = true →
       ¬(isGetHead req.method = true ∧ stripMount "/api" req.path = "/") →
       apiCompLoop env app.components req.method
         (stripMount "/api" req.path) = none →
       dispatchStarted app env req =
         .jsonError 404
           ("API Endpoint " ++ stripMount "/api" req.path ++ " not found."))
  ∧ (∀ (env : Env) (u : String) (c : WebfocusComponent)
       (rest : List (String × WebfocusComponent)) (allNames : List String)
       (m : Method) (p : String) (msg : String),
       ¬(isGetHead m = true ∧ p = "/") →
       mountMatch ("/" ++ u) p = true →
       env.compApi u { method := m, path := stripMount ("/" ++ u) p } =
         .raise msg →
       apiDispatch env ((u, c) :: rest) allNames m p = .jsonError 500 msg)
  ∧ (∀ (app : WebfocusApp) (env : Env) (req : Request) (msg : String),
       mountMatch "/api" req.path = false →
       ¬(isGetHead req.method = true ∧ req.path = "/") →
       appCompLoop env app.components req.method req.path = .raise msg →
       dispatchStarted app env req = .view 500 "layouts/error") := by
  refine ⟨?_, ?_, ?_⟩
  · intro app env req h1 hroot hloop
    have hb : (isGetHead req.method &&
        (stripMount "/api" req.path == "/")) = false := by
      by_cases hg : isGetHead req.method = true
      · have hne : stripMount "/api" req.path ≠ "/" :=
          fun hh => hroot ⟨hg, hh⟩
        simp [hg, hne]
      · simp [Bool.not_eq_true] at hg
        simp [hg]
    simp [dispatchStarted, h1, apiDispatch, hb, hloop]
  · intro env u c rest allNames m p msg hroot hmt hraise
    have hb : (isGetHead m && (p == "/")) = false := by
      by_cases hg : isGetHead m = true
      · have hne : p ≠ "/" := fun hh => hroot ⟨hg, hh⟩
        simp [hg, hne]
      · simp [Bool.not_eq_true] at hg
        simp [hg]
    simp [apiDispatch, hb, apiCompLoop, hmt, hraise]
  · intro app env req msg hapi hroot hloop
    have hb : (isGetHead req.method && (req.path == "/")) = false := by
      by_cases hg : isGetHead req.method = true
      · have hne : req.path ≠ "/" := fun hh => hroot ⟨hg, hh⟩
        simp [hg, hne]
      · simp [Bool.not_eq_true] at hg
        simp [hg]
    simp [dispatchStarted, hapi, hb, hloop]

theorem C8_witness :
    dispatchStarted appEmptyStarted env0
      { method := Method.GET, path := "/api/nope" } =
      .jsonError 404
        ("API Endpoint " ++ stripMount "/api" "/api/nope" ++ " not found.") :=
  C8_error_responses.1 appEmptyStarted env0 _ (by decide) (by decide)
    (by decide)

/-- C8 counterexample: the GET request for /api on a started application
with no components is an API request that no component router handles, yet
it receives the JSON list of component names with status 200 from the API
root route instead of a 404 JSON error response. -/
theorem C8_counterexample :
    apiCompLoop env0 appEmptyStarted.components Method.GET "/" = none
  ∧ dispatchStarted appEmptyStarted env0
      { method := Method.GET, path := "/api" } = .jsonNames []
  ∧ Resp.jsonNames [] ≠ Resp.jsonError 404 ("API Endpoint / not found.") :=
  ⟨rfl, by decide, by decide⟩

end Webfocus
